import Mathlib

/-!
Verification of the FreshnessAPI prediction service (src/app.py).

The service is a Flask app with three handlers: `predict` (POST /predict),
`health` (GET /health) and `home` (GET /).  A model artifact is deserialized
once at startup by `load_model`, which sets the process-wide globals `model`
and `model_loaded`.  We embed the handlers as pure functions of that
process-wide state; request bodies are embedded as parsed JSON objects
(association lists of string keys to JSON values), and the opaque model
artifact as a function from the feature record to either a predicted value
or a raised exception.  Python floats are modelled as rationals: the code
only compares them with the constants 0 and 24, so no floating-point
rounding behaviour is observable in any property proved here.
-/

namespace FreshnessAPI

/-- A JSON value as it can appear in a parsed request body. -/
inductive JVal where
  | null
  | bool (b : Bool)
  | num (q : ℚ)
  | str (s : String)
deriving DecidableEq, Repr

/-- A parsed JSON object body: an association list from keys to values.
Python's JSON parser keeps the last binding of a repeated key. -/
abbrev JObj := List (String × JVal)

/-- Key lookup in a parsed JSON object, Python-dict style: for a repeated
key the last binding wins. -/
def getVal (d : JObj) (k : String) : Option JVal :=
  (d.reverse.find? (fun p => p.1 == k)).map Prod.snd

/-- Python `f in data`: membership is by key, never by value. -/
def hasKey (d : JObj) (k : String) : Bool :=
  (getVal d k).isSome

/-- `data[k]`, evaluated only after the presence check has passed, so the
default is never reached in the handler. -/
def getD (d : JObj) (k : String) : JVal :=
  (getVal d k).getD JVal.null

/-- Python exceptions distinguished by the handler's `except` clauses:
`ValueError` is caught separately from every other exception. -/
inductive PyErr where
  | valueError (msg : String)
  | typeError (msg : String)
  | otherError (msg : String)
deriving DecidableEq, Repr

/-- The `<detail>` text interpolated into the handler's error responses. -/
def PyErr.message : PyErr → String
  | .valueError m => m
  | .typeError m => m
  | .otherError m => m

/-- Whether the exception is a `ValueError` (a coercion error in the
handler's taxonomy). -/
def PyErr.isValueError : PyErr → Bool
  | .valueError _ => true
  | _ => false

/-- Value of a list of decimal digit characters. -/
def digitsToNat (ds : List Char) : Nat :=
  ds.foldl (fun acc c => acc * 10 + (c.toNat - 48)) 0

/-- Parsing of a decimal numeric string as Python `float()` accepts on the
formats relevant here: optional sign, an integer part and an optional
fractional part, at least one digit overall.  A non-numeric string such as
"abc" yields `none`. -/
def strToFloat (s : String) : Option ℚ :=
  let cs := s.toList
  let signRest : Bool × List Char :=
    match cs with
    | '-' :: t => (true, t)
    | '+' :: t => (false, t)
    | t => (false, t)
  let neg := signRest.1
  let rest := signRest.2
  let intPart := rest.takeWhile Char.isDigit
  let after := rest.dropWhile Char.isDigit
  let signed : ℚ → Option ℚ := fun q => some (if neg then -q else q)
  match after with
  | [] =>
    if intPart.isEmpty then none
    else signed (mkRat (digitsToNat intPart) 1)
  | '.' :: frac =>
    if frac.all Char.isDigit && !(intPart.isEmpty && frac.isEmpty) then
      signed (mkRat (digitsToNat intPart * 10 ^ frac.length + digitsToNat frac)
        (10 ^ frac.length))
    else none
  | _ => none

/-- Detail text of the `ValueError` raised by Python `float()` on a
non-numeric string. -/
def invalidFloatMsg (s : String) : String :=
  "could not convert string to float: " ++ s

/-- Detail text of the `TypeError` raised by Python `float(None)`. -/
def nullFloatMsg : String :=
  "float() argument must be a string or a real number, not NoneType"

/-- Python `float(x)` on a JSON value: numbers and booleans convert,
numeric strings parse, non-numeric strings raise `ValueError`, and `None`
raises `TypeError`. -/
def pyFloat : JVal → Except PyErr ℚ
  | .num q => .ok q
  | .bool b => .ok (if b then 1 else 0)
  | .str s =>
    match strToFloat s with
    | some q => .ok q
    | none => .error (.valueError (invalidFloatMsg s))
  | .null => .error (.typeError nullFloatMsg)

/-- `True` iff `pyFloat` succeeds on the value. -/
def pyFloatOk (v : JVal) : Bool :=
  match pyFloat v with
  | .ok _ => true
  | .error _ => false

/-- `True` iff the value is a JSON string. -/
def JVal.isStr : JVal → Bool
  | .str _ => true
  | _ => false

/-- Python `str(x)` on a JSON value; always succeeds.  The rendering chosen
for numbers is not observed by any behaviour modelled here (the handler
only applies `str` to the two string-typed fields in every scenario a
claim describes). -/
def pyStr : JVal → String
  | .null => "None"
  | .bool b => if b then "True" else "False"
  | .num q => toString q
  | .str s => s

/-- One character of Python `str.upper()` restricted to ASCII (every
`storage_type` value named by the spec is ASCII): lowercase letters map to
the corresponding uppercase letters, everything else is unchanged. -/
def upperChar (c : Char) : Char :=
  if 'a' ≤ c ∧ c ≤ 'z' then Char.ofNat (c.toNat - 32) else c

/-- Python `str.upper()` on ASCII strings. -/
def strUpper (s : String) : String :=
  ⟨s.data.map upperChar⟩

/-- The fixed-schema feature record built by the handler and passed to the
model (the single row of the pandas DataFrame). -/
structure Features where
  temperature : ℚ
  humidity : ℚ
  time_in_inventory : ℚ
  ingredient_type : String
  storage_type : String
deriving DecidableEq, Repr

instance : DecidableEq (Except PyErr Features) := fun a b =>
  match a, b with
  | .ok x, .ok y => if h : x = y then .isTrue (by rw [h]) else .isFalse (by simp [h])
  | .error x, .error y => if h : x = y then .isTrue (by rw [h]) else .isFalse (by simp [h])
  | .ok _, .error _ => .isFalse (by simp)
  | .error _, .ok _ => .isFalse (by simp)

/-- The opaque model artifact together with the surrounding call
`float(model.predict(features)[0])`: it maps a feature record to either the
predicted hours or a raised exception. -/
def Model := Features → Except PyErr ℚ

/-- A JSON response body of the predict endpoint. -/
inductive Body where
  | error (msg : String)
  | success (hours_until_expiry : ℚ) (classification : String)
deriving DecidableEq, Repr

/-- A response: JSON body plus HTTP status code (`jsonify` alone means
status 200). -/
structure Response where
  body : Body
  status : Nat
deriving DecidableEq, Repr

/-- The declared required-field list of the handler, in source order. -/
def required_fields : List String :=
  ["temperature", "humidity", "time_in_refrigerator", "ingredient_type", "storage_type"]

/-- The three numeric fields in the order their `float` coercions are
evaluated while building the feature record. -/
def numericField : Fin 3 → String
  | 0 => "temperature"
  | 1 => "humidity"
  | 2 => "time_in_refrigerator"

/-- The threshold rule mapping predicted hours to a label
(src/app.py lines 88-93). -/
def classify (predicted_hours : ℚ) : String :=
  if predicted_hours ≤ 0 then "Expired"
  else if predicted_hours ≤ 24 then "Stale"
  else "Fresh"

/-- The body of the handler's `try` block up to the feature record: the
three `float` coercions in evaluation order, then the two `str` coercions
(which cannot fail), with `storage_type` uppercased and
`time_in_refrigerator` renamed to `time_in_inventory`. -/
def buildFeatures (data : JObj) : Except PyErr Features :=
  match pyFloat (getD data "temperature") with
  | .error e => .error e
  | .ok temperature =>
    match pyFloat (getD data "humidity") with
    | .error e => .error e
    | .ok humidity =>
      match pyFloat (getD data "time_in_refrigerator") with
      | .error e => .error e
      | .ok time_in_inventory =>
        .ok { temperature := temperature
              humidity := humidity
              time_in_inventory := time_in_inventory
              ingredient_type := pyStr (getD data "ingredient_type")
              storage_type := strUpper (pyStr (getD data "storage_type")) }

/-- The rest of the `try` block: invoke the model on the feature record and
classify the predicted hours. -/
def runPrediction (model : Model) (data : JObj) : Except PyErr Body :=
  match buildFeatures data with
  | .error e => .error e
  | .ok features =>
    match model features with
    | .error e => .error e
    | .ok predicted_hours => .ok (.success predicted_hours (classify predicted_hours))

/-- The `except` clauses wrapping the `try` block: a `ValueError` yields
400 "Invalid input", any other exception yields 500 "Prediction error",
and the successful body is returned with `jsonify`'s default status 200. -/
def tryResponse : Except PyErr Body → Response
  | .ok b => ⟨b, 200⟩
  | .error (.valueError m) => ⟨.error ("Invalid input: " ++ m), 400⟩
  | .error e => ⟨.error ("Prediction error: " ++ e.message), 500⟩

/-- The /predict handler (src/app.py, `predict`).  `body = none` models an
absent or unparseable JSON body; `some data` a parsed JSON object.  Python's
`if not data` is true both for `None` and for the empty dict, hence the two
"No data provided" branches. -/
def predict (model_loaded : Bool) (model : Model) (body : Option JObj) : Response :=
  if !model_loaded then ⟨.error "Model not loaded", 500⟩
  else
    match body with
    | none => ⟨.error "No data provided", 400⟩
    | some data =>
      if data.isEmpty then ⟨.error "No data provided", 400⟩
      else
        let missing := required_fields.filter (fun f => !(hasKey data f))
        if !missing.isEmpty then
          ⟨.error ("Missing fields: " ++ String.intercalate ", " missing), 400⟩
        else
          tryResponse (runPrediction model data)

/-- Response body of GET /health. -/
structure HealthBody where
  status : String
  model_loaded : Bool
deriving DecidableEq, Repr

/-- The /health handler (src/app.py, `health`). -/
def health (model_loaded : Bool) : HealthBody × Nat :=
  ({ status := "healthy", model_loaded := model_loaded }, 200)

/-- Response body of GET /. -/
structure HomeBody where
  message : String
  endpoints : List String
  model_loaded : Bool
deriving DecidableEq, Repr

/-- The / handler (src/app.py, `home`). -/
def home (model_loaded : Bool) : HomeBody × Nat :=
  ({ message := "Ingredient Expiry Prediction API is running!"
     endpoints := ["/predict", "/health"]
     model_loaded := model_loaded }, 200)

/-- Outcome of `joblib.load(MODEL_PATH)`: a deserialized model, a
`FileNotFoundError`, or any other exception. -/
inductive LoadOutcome where
  | ok (m : Model)
  | fileNotFound
  | otherError (msg : String)

/-- `load_model` (src/app.py lines 25-36).  `prev` is the process-wide
`model` global before the call (assigned only on success, so it is kept on
failure); the returned pair is the new `model` global and the boolean
result.  A total function of the load outcome: every exception of
`joblib.load` is caught, so nothing is raised to the caller. -/
def load_model (prev : Option Model) : LoadOutcome → Option Model × Bool
  | .ok m => (some m, true)
  | .fileNotFound => (prev, false)
  | .otherError _ => (prev, false)

/-- The process-wide state shared by all handlers: the `model` and
`model_loaded` globals set at startup. -/
structure AppState where
  model : Option Model
  model_loaded : Bool

/-- One incoming request. -/
inductive Call where
  | predictC (body : Option JObj)
  | healthC
  | homeC

/-- A response body of any of the three endpoints. -/
inductive AnyBody where
  | predictB (b : Body)
  | healthB (b : HealthBody)
  | homeB (b : HomeBody)

/-- Fallback for `model.predict` when the global `model` is `None` (Python
would raise an `AttributeError`, an exception that is not a `ValueError`);
unreachable whenever `model_loaded` is consistent with `model`. -/
def noneModel : Model :=
  fun _ => .error (.otherError "NoneType object has no attribute predict")

/-- Dispatch one request against the process-wide state.  No handler in
src/app.py contains a `global` statement or assigns either global, so each
returns the state unchanged. -/
def handle (s : AppState) (c : Call) : AppState × (AnyBody × Nat) :=
  match c with
  | .predictC body =>
    let r := predict s.model_loaded (s.model.getD noneModel) body
    (s, (.predictB r.body, r.status))
  | .healthC =>
    let r := health s.model_loaded
    (s, (.healthB r.1, r.2))
  | .homeC =>
    let r := home s.model_loaded
    (s, (.homeB r.1, r.2))

/-- The state after a request. -/
def stepState (s : AppState) (c : Call) : AppState :=
  (handle s c).1

/-- A model that predicts the constant `q` for every feature record. -/
def constModel (q : ℚ) : Model :=
  fun _ => .ok q

/-- A model that raises on every call; also used where the model is never
reached. -/
def failModel (e : PyErr) : Model :=
  fun _ => .error e

/-- The end-to-end example body of the spec. -/
def bodyOK : JObj :=
  [("temperature", .num 4), ("humidity", .num 65), ("time_in_refrigerator", .num 10),
   ("ingredient_type", .str "CHEESE"), ("storage_type", .str "fridge")]

/-- A complete body whose `temperature` is `null` and whose `humidity` is a
non-numeric string. -/
def dataNullThenBad : JObj :=
  [("temperature", .null), ("humidity", .str "abc"), ("time_in_refrigerator", .num 10),
   ("ingredient_type", .str "CHEESE"), ("storage_type", .str "fridge")]

/-- A complete body whose `temperature` is a non-numeric string and whose
`humidity` is `null`. -/
def dataBadThenNull : JObj :=
  [("temperature", .str "abc"), ("humidity", .null), ("time_in_refrigerator", .num 10),
   ("ingredient_type", .str "CHEESE"), ("storage_type", .str "fridge")]

/-- A complete body whose `humidity` is a non-numeric string and whose
other fields are valid. -/
def dataBadHumidity : JObj :=
  [("temperature", .num 4), ("humidity", .str "abc"), ("time_in_refrigerator", .num 10),
   ("ingredient_type", .str "CHEESE"), ("storage_type", .str "fridge")]

/-- A body missing exactly `humidity` and `storage_type`. -/
def dataMissingTwo : JObj :=
  [("temperature", .num 4), ("time_in_refrigerator", .num 10), ("ingredient_type", .str "CHEESE")]

/-- `dataMissingTwo` with its entries arriving in the opposite order. -/
def dataMissingTwoRev : JObj :=
  [("ingredient_type", .str "CHEESE"), ("time_in_refrigerator", .num 10), ("temperature", .num 4)]

/-- `bodyOK` with `storage_type` spelled `"FRIDGE"` instead of `"fridge"`. -/
def bodyOKUpper : JObj :=
  [("temperature", .num 4), ("humidity", .num 65), ("time_in_refrigerator", .num 10),
   ("ingredient_type", .str "CHEESE"), ("storage_type", .str "FRIDGE")]

/-! ### Helper lemmas -/

theorem hasKey_iff (d : JObj) (k : String) :
    hasKey d k = true ↔ ∃ x ∈ d, x.1 = k := by
  simp [hasKey, getVal, List.find?_isSome, List.mem_reverse]

theorem isEmpty_false_of_hasKey (d : JObj) (k : String) (h : hasKey d k = true) :
    d.isEmpty = false := by
  cases d with
  | nil => simp [hasKey, getVal] at h
  | cons a t => rfl

theorem missing_nil_of_present (d : JObj)
    (hpresent : ∀ f ∈ required_fields, hasKey d f = true) :
    required_fields.filter (fun f => !(hasKey d f)) = [] := by
  rw [List.filter_eq_nil_iff]
  intro f hf
  simp [hpresent f hf]

/-- After the guards have passed, the handler's response is the `try` block's
response. -/
theorem predict_of_present (m : Model) (data : JObj)
    (hpresent : ∀ f ∈ required_fields, hasKey data f = true) :
    predict true m (some data) = tryResponse (runPrediction m data) := by
  have hne : data.isEmpty = false :=
    isEmpty_false_of_hasKey data "temperature" (hpresent _ (by simp [required_fields]))
  have hmiss := missing_nil_of_present data hpresent
  simp [predict, hne, hmiss]

theorem tryResponse_success_inv (r : Except PyErr Body) (h : ℚ) (c : String) (st : Nat)
    (he : tryResponse r = ⟨.success h c, st⟩) : r = .ok (.success h c) := by
  cases r with
  | ok b =>
    simp only [tryResponse, Response.mk.injEq] at he
    rw [he.1]
  | error e => cases e <;> simp [tryResponse] at he

theorem runPrediction_success_inv (m : Model) (data : JObj) (h : ℚ) (c : String)
    (hr : runPrediction m data = .ok (.success h c)) : c = classify h := by
  unfold runPrediction at hr
  split at hr
  · simp at hr
  · split at hr
    · simp at hr
    · simp only [Except.ok.injEq, Body.success.injEq] at hr
      rw [← hr.1, ← hr.2]

theorem predict_success_eq_classify (ml : Bool) (m : Model) (body : Option JObj)
    (h : ℚ) (c : String) (st : Nat)
    (hs : predict ml m body = ⟨.success h c, st⟩) : c = classify h := by
  unfold predict at hs
  split at hs
  · simp at hs
  · split at hs
    · simp at hs
    · split at hs
      · simp at hs
      · dsimp only at hs
        split at hs
        · simp at hs
        · exact runPrediction_success_inv m _ h c (tryResponse_success_inv _ h c st hs)

theorem pyFloat_ok_of_pyFloatOk (v : JVal) (h : pyFloatOk v = true) :
    ∃ q, pyFloat v = .ok q := by
  unfold pyFloatOk at h
  cases hv : pyFloat v with
  | ok q => exact ⟨q, rfl⟩
  | error e => rw [hv] at h; simp at h

theorem hasKey_perm (d₁ d₂ : JObj) (hp : d₁.Perm d₂) (k : String) :
    hasKey d₁ k = hasKey d₂ k := by
  by_cases hk : hasKey d₁ k = true
  · obtain ⟨x, hx, he⟩ := (hasKey_iff d₁ k).mp hk
    rw [hk, ((hasKey_iff d₂ k).mpr ⟨x, hp.mem_iff.mp hx, he⟩)]
  · have hk₂ : ¬hasKey d₂ k = true := by
      intro hc
      obtain ⟨x, hx, he⟩ := (hasKey_iff d₂ k).mp hc
      exact hk ((hasKey_iff d₁ k).mpr ⟨x, hp.mem_iff.mpr hx, he⟩)
    simp only [Bool.not_eq_true] at hk hk₂
    rw [hk, hk₂]

theorem predict_missing_branch (m : Model) (d : JObj) (hne : d.isEmpty = false)
    (a : String) (t : List String)
    (hf : required_fields.filter (fun f => !(hasKey d f)) = a :: t) :
    predict true m (some d)
      = ⟨.error ("Missing fields: " ++ String.intercalate ", " (a :: t)), 400⟩ := by
  simp [predict, hne, hf]

/-! ### Claim theorems -/

/-- C1: For every successful prediction, the classification returned by
the predict handler is determined exactly by the thresholds:
`predicted_hours ≤ 0` yields "Expired", `0 < predicted_hours ≤ 24` yields
"Stale", and `predicted_hours > 24` yields "Fresh"; in particular 24 maps
to "Stale" and 0 maps to "Expired". -/
theorem classification_thresholds (ml : Bool) (m : Model) (body : Option JObj)
    (h : ℚ) (c : String) (st : Nat)
    (hs : predict ml m body = ⟨.success h c, st⟩) :
    c = classify h ∧
    (h ≤ 0 → c = "Expired") ∧
    (0 < h ∧ h ≤ 24 → c = "Stale") ∧
    (24 < h → c = "Fresh") ∧
    classify 24 = "Stale" ∧ classify 0 = "Expired" := by
  have hc := predict_success_eq_classify ml m body h c st hs
  subst hc
  refine ⟨rfl, ?_, ?_, ?_, by decide, by decide⟩
  · intro hle
    simp [classify, hle]
  · rintro ⟨h0, h24⟩
    simp [classify, not_le.mpr h0, h24]
  · intro hgt
    have h0 : ¬h ≤ 0 := not_le.mpr (lt_trans (by norm_num : (0 : ℚ) < 24) hgt)
    simp [classify, h0, not_le.mpr hgt]

/-- Witness for C1 at the spec's end-to-end body with a model predicting a
constant 30 hours. -/
theorem classification_thresholds_witness :
    "Fresh" = classify 30 ∧
    ((30 : ℚ) ≤ 0 → "Fresh" = "Expired") ∧
    ((0 : ℚ) < 30 ∧ (30 : ℚ) ≤ 24 → "Fresh" = "Stale") ∧
    ((24 : ℚ) < 30 → "Fresh" = "Fresh") ∧
    classify 24 = "Stale" ∧ classify 0 = "Expired" :=
  classification_thresholds true (constModel 30) (some bodyOK) 30 "Fresh" 200 (by decide)

/-- C2: For every request that reaches the model invocation with the model
loaded (all fields present and all coercions succeeded), an exception
raised by the model call that is not a coercion error (`ValueError`) yields
the response `{"error": "Prediction error: <detail>"}` with status 500. -/
theorem noncoercion_exception_yields_500 (m : Model) (data : JObj)
    (fts : Features) (e : PyErr)
    (hpresent : ∀ f ∈ required_fields, hasKey data f = true)
    (hbf : buildFeatures data = .ok fts)
    (hm : m fts = .error e)
    (hnv : e.isValueError = false) :
    predict true m (some data) = ⟨.error ("Prediction error: " ++ e.message), 500⟩ := by
  rw [predict_of_present m data hpresent]
  unfold runPrediction
  simp only [hbf, hm]
  cases e with
  | valueError msg => simp [PyErr.isValueError] at hnv
  | typeError msg => rfl
  | otherError msg => rfl

/-- Witness for C2: the spec's end-to-end body with a model that raises a
non-`ValueError` exception. -/
theorem noncoercion_exception_yields_500_witness :
    predict true (failModel (.otherError "boom")) (some bodyOK)
      = ⟨.error ("Prediction error: " ++ "boom"), 500⟩ :=
  noncoercion_exception_yields_500 (failModel (.otherError "boom")) bodyOK
    { temperature := 4, humidity := 65, time_in_inventory := 10,
      ingredient_type := "CHEESE", storage_type := "FRIDGE" }
    (.otherError "boom") (by decide) (by decide) rfl rfl

/-- C5: Whenever the model failed to load at startup, every call to the
predict handler, for every request body whatsoever, responds
`{"error": "Model not loaded"}` with status 500 (before any validation:
the response does not depend on the body), while the health endpoint still
responds status 200 and reports `model_loaded = false`. -/
theorem model_not_loaded_fail_fast (m : Model) (body : Option JObj) :
    predict false m body = ⟨.error "Model not loaded", 500⟩ ∧
    health false = ({ status := "healthy", model_loaded := false }, 200) :=
  ⟨rfl, rfl⟩

/-- C6: `load_model` never raises to its caller: it is a total function of
the deserialization outcome.  On success it returns `true` and sets the
model reference; on file-not-found it returns `false`; on any other
deserialization error it likewise returns `false` (leaving the model
reference unchanged). -/
theorem load_model_never_raises (prev : Option Model) (o : LoadOutcome) :
    (∀ m, o = .ok m → load_model prev o = (some m, true)) ∧
    (o = .fileNotFound → load_model prev o = (prev, false)) ∧
    (∀ msg, o = .otherError msg → load_model prev o = (prev, false)) := by
  refine ⟨?_, ?_, ?_⟩
  · intro m hm; rw [hm]; rfl
  · intro hm; rw [hm]; rfl
  · intro msg hm; rw [hm]; rfl

/-- Witness for C6 at concrete load outcomes. -/
theorem load_model_never_raises_witness :
    load_model none .fileNotFound = (none, false) ∧
    load_model none (.ok (constModel 1)) = (some (constModel 1), true) ∧
    load_model none (.otherError "corrupt artifact") = (none, false) :=
  ⟨(load_model_never_raises none .fileNotFound).2.1 rfl,
   (load_model_never_raises none (.ok (constModel 1))).1 (constModel 1) rfl,
   (load_model_never_raises none (.otherError "corrupt artifact")).2.2 "corrupt artifact" rfl⟩

/-- C8: No request handler mutates the process-wide state: after any
sequence of calls to the predict, health and home handlers the state (the
model reference and the `model_loaded` flag) is exactly the startup state,
and every call to / and /health returns the startup `model_loaded` value. -/
theorem handlers_read_only (s : AppState) (cs : List Call) :
    cs.foldl stepState s = s ∧
    (∀ c, (handle s c).1 = s) ∧
    handle s .healthC
      = (s, (.healthB { status := "healthy", model_loaded := s.model_loaded }, 200)) ∧
    handle s .homeC
      = (s, (.homeB { message := "Ingredient Expiry Prediction API is running!",
                      endpoints := ["/predict", "/health"],
                      model_loaded := s.model_loaded }, 200)) := by
  have hstep : ∀ c, stepState s c = s := by
    intro c; cases c <;> rfl
  refine ⟨?_, fun c => hstep c, rfl, rfl⟩
  induction cs with
  | nil => rfl
  | cons c t ih => rw [List.foldl_cons, hstep, ih]

/-- C3 counterexample: the empty JSON object is a parseable object body
missing all five required fields, yet the handler responds
"No data provided" (Python's `if not data` is true for the empty dict),
not a "Missing fields" message listing the five fields. -/
theorem missing_fields_counterexample :
    predict true (constModel 30) (some []) = ⟨.error "No data provided", 400⟩ ∧
    "No data provided"
      ≠ "Missing fields: " ++ String.intercalate ", " required_fields :=
  ⟨rfl, by decide⟩

/-- C3 (amended): For every request whose body is a parseable *nonempty*
JSON object missing at least one of the five required fields, the handler
responds with status 400 and an error message listing exactly the missing
field names, comma-joined, in the fixed declared order, regardless of the
order fields arrive in the request (any permutation of the body yields the
same response). -/
theorem missing_fields_response (m : Model) (data : JObj)
    (hne : data.isEmpty = false)
    (hmiss : required_fields.filter (fun f => !(hasKey data f)) ≠ []) :
    predict true m (some data)
      = ⟨.error ("Missing fields: " ++ String.intercalate ", "
          (required_fields.filter (fun f => !(hasKey data f)))), 400⟩ ∧
    ∀ data' : JObj, data'.Perm data →
      predict true m (some data') = predict true m (some data) := by
  cases hl : required_fields.filter (fun f => !(hasKey data f)) with
  | nil => exact absurd hl hmiss
  | cons a t =>
    constructor
    · exact predict_missing_branch m data hne a t hl
    · intro data' hperm
      have hm : required_fields.filter (fun f => !(hasKey data' f))
          = required_fields.filter (fun f => !(hasKey data f)) :=
        List.filter_congr fun f _ => by rw [hasKey_perm data' data hperm f]
      have hne' : data'.isEmpty = false := by
        cases data' with
        | nil =>
          rw [hperm.symm.eq_nil] at hne
          simp at hne
        | cons b u => rfl
      rw [predict_missing_branch m data' hne' a t (hm.trans hl),
        predict_missing_branch m data hne a t hl]

/-- Witness for C3 (amended): omitting humidity and storage_type yields the
spec's example message, and the reversed arrival order yields the same
response. -/
theorem missing_fields_response_witness :
    predict true (constModel 30) (some dataMissingTwo)
      = ⟨.error "Missing fields: humidity, storage_type", 400⟩ ∧
    predict true (constModel 30) (some dataMissingTwoRev)
      = predict true (constModel 30) (some dataMissingTwo) :=
  ⟨((missing_fields_response (constModel 30) dataMissingTwo rfl (by decide)).1).trans
      (by decide),
   (missing_fields_response (constModel 30) dataMissingTwo rfl (by decide)).2
      dataMissingTwoRev (by decide)⟩

/-- C4 counterexample: a complete request (model loaded) in which a numeric
field (humidity) is the non-numeric string "abc" but another numeric field
(temperature) is null is answered with status 500 "Prediction error", not
400 "Invalid input": the null's TypeError is raised first. -/
theorem invalid_numeric_string_counterexample :
    getD dataNullThenBad "humidity" = .str "abc" ∧
    strToFloat "abc" = none ∧
    predict true (constModel 30) (some dataNullThenBad)
      = ⟨.error ("Prediction error: " ++ nullFloatMsg), 500⟩ :=
  ⟨by decide, by decide, by decide⟩

/-- C4 (amended): For every request reaching the coercion step (model
loaded, all five fields present) in which the first numeric field, in the
evaluation order temperature, humidity, time_in_refrigerator, to fail
float coercion is a non-numeric string (every numeric field before it
coercing successfully), the handler responds with status 400 and an error
message beginning "Invalid input:", never a 500. -/
theorem invalid_numeric_string_400 (m : Model) (data : JObj) (k : Fin 3) (s : String)
    (hpresent : ∀ f ∈ required_fields, hasKey data f = true)
    (hprev : ∀ j : Fin 3, j < k → pyFloatOk (getD data (numericField j)) = true)
    (hk : getD data (numericField k) = .str s)
    (hbad : strToFloat s = none) :
    predict true m (some data)
      = ⟨.error ("Invalid input: " ++ invalidFloatMsg s), 400⟩ := by
  rw [predict_of_present m data hpresent]
  have hks : pyFloat (getD data (numericField k)) = .error (.valueError (invalidFloatMsg s)) := by
    rw [hk]
    simp [pyFloat, hbad]
  fin_cases k
  · have h0 : pyFloat (getD data "temperature")
        = .error (.valueError (invalidFloatMsg s)) := hks
    unfold runPrediction buildFeatures
    rw [h0]
    rfl
  · obtain ⟨qt, hqt⟩ := pyFloat_ok_of_pyFloatOk _ (hprev 0 (by decide))
    have hqt' : pyFloat (getD data "temperature") = .ok qt := hqt
    have h1 : pyFloat (getD data "humidity")
        = .error (.valueError (invalidFloatMsg s)) := hks
    unfold runPrediction buildFeatures
    rw [hqt', h1]
    rfl
  · obtain ⟨qt, hqt⟩ := pyFloat_ok_of_pyFloatOk _ (hprev 0 (by decide))
    obtain ⟨qh, hqh⟩ := pyFloat_ok_of_pyFloatOk _ (hprev 1 (by decide))
    have hqt' : pyFloat (getD data "temperature") = .ok qt := hqt
    have hqh' : pyFloat (getD data "humidity") = .ok qh := hqh
    have h2 : pyFloat (getD data "time_in_refrigerator")
        = .error (.valueError (invalidFloatMsg s)) := hks
    unfold runPrediction buildFeatures
    rw [hqt', hqh', h2]
    rfl

/-- Witness for C4 (amended): humidity is "abc", temperature coerces. -/
theorem invalid_numeric_string_400_witness :
    predict true (constModel 30) (some dataBadHumidity)
      = ⟨.error ("Invalid input: " ++ invalidFloatMsg "abc"), 400⟩ :=
  invalid_numeric_string_400 (constModel 30) dataBadHumidity 1 "abc"
    (by decide) (by decide) (by decide) (by decide)

/-- C7: For every pair of requests identical except for the letter case of
`storage_type`, the feature record passed to the model is identical
(`storage_type` uppercased), so the two requests produce identical
predictions and classifications: the handler's responses are equal. -/
theorem storage_type_case_insensitive (ml : Bool) (m : Model) (d₁ d₂ : JObj)
    (s₁ s₂ : String)
    (hkeys : ∀ k, k ≠ "storage_type" → getVal d₁ k = getVal d₂ k)
    (h₁ : getVal d₁ "storage_type" = some (.str s₁))
    (h₂ : getVal d₂ "storage_type" = some (.str s₂))
    (hcase : strUpper s₁ = strUpper s₂) :
    buildFeatures d₁ = buildFeatures d₂ ∧
    predict ml m (some d₁) = predict ml m (some d₂) := by
  have ht := hkeys "temperature" (by decide)
  have hh := hkeys "humidity" (by decide)
  have hti := hkeys "time_in_refrigerator" (by decide)
  have hing := hkeys "ingredient_type" (by decide)
  have hbf : buildFeatures d₁ = buildFeatures d₂ := by
    unfold buildFeatures getD
    rw [ht, hh, hti, hing, h₁, h₂]
    simp only [Option.getD_some, pyStr]
    rw [hcase]
  refine ⟨hbf, ?_⟩
  cases ml with
  | false => rfl
  | true =>
    have hk_all : ∀ k, hasKey d₁ k = hasKey d₂ k := by
      intro k
      by_cases hk : k = "storage_type"
      · subst hk
        simp [hasKey, h₁, h₂]
      · simp [hasKey, hkeys k hk]
    have hm : required_fields.filter (fun f => !(hasKey d₁ f))
        = required_fields.filter (fun f => !(hasKey d₂ f)) :=
      List.filter_congr fun f _ => by rw [hk_all f]
    have hrun : runPrediction m d₁ = runPrediction m d₂ := by
      unfold runPrediction
      rw [hbf]
    cases hl : required_fields.filter (fun f => !(hasKey d₂ f)) with
    | nil =>
      have hp₂ : ∀ f ∈ required_fields, hasKey d₂ f = true := by
        intro f hf
        have := List.filter_eq_nil_iff.mp hl f hf
        simpa using this
      have hp₁ : ∀ f ∈ required_fields, hasKey d₁ f = true := by
        intro f hf
        rw [hk_all f]
        exact hp₂ f hf
      rw [predict_of_present m d₁ hp₁, predict_of_present m d₂ hp₂, hrun]
    | cons a t =>
      have hne₁ : d₁.isEmpty = false :=
        isEmpty_false_of_hasKey d₁ "storage_type" (by simp [hasKey, h₁])
      have hne₂ : d₂.isEmpty = false :=
        isEmpty_false_of_hasKey d₂ "storage_type" (by simp [hasKey, h₂])
      rw [predict_missing_branch m d₁ hne₁ a t (hm.trans hl),
        predict_missing_branch m d₂ hne₂ a t hl]

/-- Witness for C7: the spec's end-to-end body with "fridge" versus
"FRIDGE". -/
theorem storage_type_case_insensitive_witness :
    buildFeatures bodyOK = buildFeatures bodyOKUpper ∧
    predict true (constModel 30) (some bodyOK)
      = predict true (constModel 30) (some bodyOKUpper) :=
  storage_type_case_insensitive true (constModel 30) bodyOK bodyOKUpper
    "fridge" "FRIDGE"
    (by
      intro k hk
      have hb : ("storage_type" == k) = false :=
        beq_eq_false_iff_ne.mpr fun e => hk e.symm
      simp only [bodyOK, bodyOKUpper, getVal, List.reverse_cons, List.reverse_nil,
        List.nil_append, List.cons_append, List.find?, hb])
    (by decide) (by decide) (by decide)

/-- C10 counterexample: a complete request (model loaded) in which a
required numeric field (humidity) is null but an earlier numeric field
(temperature) is the non-numeric string "abc" is answered with status 400
"Invalid input", not 500: the ValueError is raised first. -/
theorem null_numeric_field_counterexample :
    getD dataBadThenNull "humidity" = .null ∧
    predict true (constModel 30) (some dataBadThenNull)
      = ⟨.error ("Invalid input: " ++ invalidFloatMsg "abc"), 400⟩ :=
  ⟨by decide, by decide⟩

/-- C10 (amended): For a request (model loaded, all five fields present) in
which the first numeric field, in the evaluation order temperature,
humidity, time_in_refrigerator, to fail float coercion is null (every
numeric field before it coercing successfully), the presence check passes
(membership is by key, not by value), and the float coercion raises
TypeError rather than ValueError, so the handler responds with status 500
"Prediction error: <detail>" rather than 400 "Invalid input". -/
theorem null_numeric_field_500 (m : Model) (data : JObj) (k : Fin 3)
    (hpresent : ∀ f ∈ required_fields, hasKey data f = true)
    (hprev : ∀ j : Fin 3, j < k → pyFloatOk (getD data (numericField j)) = true)
    (hk : getD data (numericField k) = .null) :
    hasKey data (numericField k) = true ∧
    pyFloat .null = .error (.typeError nullFloatMsg) ∧
    (PyErr.typeError nullFloatMsg).isValueError = false ∧
    predict true m (some data)
      = ⟨.error ("Prediction error: " ++ nullFloatMsg), 500⟩ := by
  refine ⟨hpresent _ ?_, rfl, rfl, ?_⟩
  · fin_cases k <;> decide
  · rw [predict_of_present m data hpresent]
    have hks : pyFloat (getD data (numericField k)) = .error (.typeError nullFloatMsg) := by
      rw [hk]
      rfl
    fin_cases k
    · have h0 : pyFloat (getD data "temperature") = .error (.typeError nullFloatMsg) := hks
      unfold runPrediction buildFeatures
      rw [h0]
      rfl
    · obtain ⟨qt, hqt⟩ := pyFloat_ok_of_pyFloatOk _ (hprev 0 (by decide))
      have hqt' : pyFloat (getD data "temperature") = .ok qt := hqt
      have h1 : pyFloat (getD data "humidity") = .error (.typeError nullFloatMsg) := hks
      unfold runPrediction buildFeatures
      rw [hqt', h1]
      rfl
    · obtain ⟨qt, hqt⟩ := pyFloat_ok_of_pyFloatOk _ (hprev 0 (by decide))
      obtain ⟨qh, hqh⟩ := pyFloat_ok_of_pyFloatOk _ (hprev 1 (by decide))
      have hqt' : pyFloat (getD data "temperature") = .ok qt := hqt
      have hqh' : pyFloat (getD data "humidity") = .ok qh := hqh
      have h2 : pyFloat (getD data "time_in_refrigerator")
          = .error (.typeError nullFloatMsg) := hks
      unfold runPrediction buildFeatures
      rw [hqt', hqh', h2]
      rfl

/-- Witness for C10 (amended): temperature is null in an otherwise complete
body. -/
theorem null_numeric_field_500_witness :
    hasKey dataNullThenBad "temperature" = true ∧
    pyFloat .null = .error (.typeError nullFloatMsg) ∧
    (PyErr.typeError nullFloatMsg).isValueError = false ∧
    predict true (constModel 30) (some dataNullThenBad)
      = ⟨.error ("Prediction error: " ++ nullFloatMsg), 500⟩ :=
  null_numeric_field_500 (constModel 30) dataNullThenBad 0
    (by decide) (by decide) (by decide)

/-- C9: For a request body that parses to the empty JSON object (present
and parseable, all five required fields absent), the predict handler
responds `{"error": "No data provided"}` with status 400, not a
"Missing fields" message listing the five fields. -/
theorem empty_object_no_data (m : Model) :
    predict true m (some []) = ⟨.error "No data provided", 400⟩ ∧
    "No data provided" ≠ "Missing fields: " ++ String.intercalate ", " required_fields :=
  ⟨rfl, by decide⟩

end FreshnessAPI
